import Mathlib

/-!
Verification of the view-stack controller and streaming engine of the `sen`
terminal dashboard (`src/sen/tui.py`), shallowly embedded in Lean.

Widgets are urwid objects compared by object identity; we model identity with
a numeric id.  Operations that can raise an uncaught Python exception
(`IndexError`, `ValueError`, `RuntimeError`, backend errors) are modelled with
`Except String`, the error string naming the exception.
-/

/-- A toolkit widget held by the `UI` widget stack.  `wid` models Python
object identity (urwid widgets use default identity-based `==`);
`hasDestroy` records whether the object exposes a `destroy` teardown hook
(`AsyncScrollableListBox` does; the other list boxes do not). -/
structure Widget where
  wid : Nat
  hasDestroy : Bool
deriving DecidableEq, Repr

/-- State of the `UI` controller: `mainList` is the `MainListBox` created at
startup, `widgets` is `self.widgets`, `displayed` is the widget currently set
as the body of `self.mainframe`, and `redraws` counts `draw_screen` calls. -/
structure UIState where
  mainList : Widget
  widgets : List Widget
  displayed : Widget
  redraws : Nat
deriving DecidableEq, Repr

/-- `UI._set_main_widget(widget, redraw)`: sets the frame body to `widget`
and, when `redraw` is true, requests one screen redraw. -/
def set_main_widget (s : UIState) (w : Widget) (redraw : Bool) : UIState :=
  { s with displayed := w, redraws := s.redraws + (if redraw then 1 else 0) }

/-- `UI.add_and_set_main_widget(widget, redraw=True)`: appends `widget` to
`self.widgets` unless it is already a member, then displays it. -/
def add_and_set_main_widget (s : UIState) (w : Widget) (redraw : Bool) : UIState :=
  let widgets' := if w ∈ s.widgets then s.widgets else s.widgets ++ [w]
  set_main_widget { s with widgets := widgets' } w redraw

/-- Python sequence indexing `xs[i]` with an `int` index: a negative `i`
counts from the end (`xs[len(xs)+i]`), and any index outside
`-len(xs) <= i < len(xs)` raises `IndexError` (here: `none`). -/
def pyGet (xs : List α) (i : Int) : Option α :=
  if i < 0 then
    if i.natAbs ≤ xs.length then xs[xs.length - i.natAbs]? else none
  else
    xs[i.toNat]?

/-- `UI.pick_main_widget(i)`: a no-op on a single-widget stack; otherwise
displays `self.widgets[i]`, falling back to `self.widgets[0]` when the
indexing raises `IndexError`.  The `.error` case is the uncaught `IndexError`
raised by the fallback itself on an empty stack. -/
def pick_main_widget (s : UIState) (i : Int) : Except String UIState :=
  if s.widgets.length = 1 then .ok s
  else
    match pyGet s.widgets i with
    | some w => .ok (set_main_widget s w true)
    | none =>
      match pyGet s.widgets 0 with
      | some w => .ok (set_main_widget s w true)
      | none => .error "IndexError"

/-- `UI.current_widget_index`: `self.widgets.index(self.current_widget)`;
`none` models the `ValueError` raised when the displayed widget is absent. -/
def current_widget_index (s : UIState) : Option Nat :=
  s.widgets.indexOf? s.displayed

/-- `UI.remove_current_widget()`: refused with a warning when the displayed
widget is the main list; otherwise removes the displayed widget from
`self.widgets`, calls its `destroy` hook when it has one, and displays the
main list.  The result carries the new state, the list of widgets whose
`destroy` hook was invoked (in invocation order), and whether the refusal
warning was logged.  `.error` models the uncaught `ValueError` from
`list.remove` when the displayed widget is not a stack member. -/
def remove_current_widget (s : UIState) : Except String (UIState × List Widget × Bool) :=
  if s.displayed = s.mainList then .ok (s, [], true)
  else if s.displayed ∈ s.widgets then
    let destroyed := if s.displayed.hasDestroy then [s.displayed] else []
    .ok (set_main_widget { s with widgets := s.widgets.erase s.displayed } s.mainList true,
         destroyed, false)
  else .error "ValueError"

/-- Python `str.strip()`: drop whitespace from both ends. -/
def pyStrip (s : String) : String :=
  String.mk (((s.data.dropWhile Char.isWhitespace).reverse.dropWhile Char.isWhitespace).reverse)

/-- Python `str.split(sep)` for a one-character separator, on the character
list: `"a\nb\n".split("\n") == ["a", "b", ""]`. -/
def pySplit (sep : Char) : List Char → List (List Char)
  | [] => [[]]
  | c :: cs =>
    if c = sep then [] :: pySplit sep cs
    else
      match pySplit sep cs with
      | [] => [[c]]
      | g :: gs => (c :: g) :: gs

/-- `AsyncScrollableListBox.__init__`, seeding phase: split the decoded
initial block on newlines, strip each piece, and keep the non-empty results
as the initial `log_texts`. -/
def initial_log_texts (static_data : String) : List String :=
  (pySplit (Char.ofNat 10) static_data.data).filterMap fun d =>
    let log_entry := pyStrip (String.mk d)
    if log_entry = "" then none else some log_entry

/-- The `fetch_logs` worker loop of `AsyncScrollableListBox`: for each line
taken from the generator it first reads the `stop` flag and breaks if it is
set, otherwise appends the stripped line to the walker.  `gen` is the
sequence of lines the generator produces (in production order) and
`stopObs k` is the value of the `stop` flag the worker observes after
fetching the k-th line; the result is the list of appended lines. -/
def fetch_logs (stopObs : Nat → Bool) : Nat → List String → List String
  | _, [] => []
  | k, line :: rest =>
    if stopObs k then []
    else pyStrip line :: fetch_logs stopObs (k + 1) rest

/-- Final contents of an `AsyncScrollableListBox` walker: the seeded lines of
the initial block followed by the lines the worker appended. -/
def streamingBuffer (static_data : String) (gen : List String) (stopObs : Nat → Bool) :
    List String :=
  initial_log_texts static_data ++ fetch_logs stopObs 0 gen

/-- Modelled from the spec: the `DockerImage` / `DockerContainer` classes live
in `sen/docker_backend.py`, which is not part of the controller source; per
the data model an Image carries an identifier and a name list, a Container an
identifier, a name, a command string and a status string (creation timestamps
are rendered by an external helper, abstracted below as `displayTime`).
`foreign` stands for a row bound to any other Python object (the dynamic
dispatch in `tui.py` has an explicit `else: raise` branch for it). -/
inductive DockerObject where
  | image (image_id : String) (names : String)
  | container (container_id : String) (name : String) (command : String) (status : String)
  | foreign
deriving DecidableEq, Repr

/-- One rendered row of the main list: the bound object, the identifier text
shown in the first column, and the remaining text columns in display order. -/
structure Row where
  docker_object : DockerObject
  shown_id : String
  text_columns : List String
deriving DecidableEq, Repr

/-- `MainListBox._assemble_initial_content`, per object: an Image row shows
`image_id[:12]`, then names and the rendered creation time; a Container row
shows `container_id[:12]`, then command, time, status and name.  Any other
object leaves `line = None`. -/
def assemble_row (displayTime : DockerObject → String) (o : DockerObject) : Option Row :=
  match o with
  | .image iid names => some ⟨o, iid.take 12, [names, displayTime o]⟩
  | .container cid name cmd st => some ⟨o, cid.take 12, [cmd, displayTime o, st, name]⟩
  | .foreign => none

/-- `MainListBox._assemble_initial_content` over the backend inventory. -/
def assemble_initial_content (displayTime : DockerObject → String)
    (objects : List DockerObject) : List (Option Row) :=
  objects.map (assemble_row displayTime)

/-- Modelled from the spec: the `DockerBackend` adapter
(`sen/docker_backend.py`, not part of the controller source).  Inspection is
synchronous and may fail; `logs` returns the initial byte block and the lazy
line sequence (modelled as the list of lines it produces). -/
structure DockerBackendM where
  inspect_image : String → Except String String
  inspect_container : String → Except String String
  logs : String → String × List String

/-- A call made to the backend adapter, recording the identifier passed. -/
inductive BackendCall where
  | inspectImage (id : String)
  | inspectContainer (id : String)
  | logs (id : String)
deriving DecidableEq, Repr

/-- `MainListBox.keypress` on key `i`, given the object bound to the focused
row and the fresh `ScrollableListBox` widget `newW` that would wrap the
rendered payload.  Returns the backend calls issued and either the new UI
state or the uncaught exception: `RuntimeError: wat` for an unknown variant,
or the backend error, which no caller catches. -/
def keypress_i (be : DockerBackendM) (s : UIState) (o : DockerObject) (newW : Widget) :
    List BackendCall × Except String UIState :=
  match o with
  | .image iid _ =>
    ([.inspectImage iid],
      match be.inspect_image iid with
      | .error e => .error e
      | .ok _ => .ok (add_and_set_main_widget s newW true))
  | .container cid _ _ _ =>
    ([.inspectContainer cid],
      match be.inspect_container cid with
      | .error e => .error e
      | .ok _ => .ok (add_and_set_main_widget s newW true))
  | .foreign => ([], .error "RuntimeError: wat")

/-- `MainListBox.keypress` on key `l`: for a Container row, requests the log
stream for the full `container_id` and pushes the fresh
`AsyncScrollableListBox` widget `newW`; for any other row it does nothing. -/
def keypress_l (be : DockerBackendM) (s : UIState) (o : DockerObject) (newW : Widget) :
    List BackendCall × Except String UIState :=
  match o with
  | .container cid _ _ _ =>
    ([.logs cid], .ok (add_and_set_main_widget s newW true))
  | _ => ([], .ok s)

theorem fetch_logs_no_stop (gen : List String) :
    ∀ k, fetch_logs (fun _ => false) k gen = gen.map pyStrip := by
  induction gen with
  | nil => intro k; rfl
  | cons line rest ih =>
    intro k
    simp [fetch_logs, ih]

theorem fetch_logs_front (stopObs : Nat → Bool) :
    ∀ (gen : List String) (k0 : Nat),
      fetch_logs stopObs k0 gen =
        (gen.take (fetch_logs stopObs k0 gen).length).map pyStrip ∧
      ∀ i < (fetch_logs stopObs k0 gen).length, stopObs (k0 + i) = false := by
  intro gen
  induction gen with
  | nil => intro k0; exact ⟨rfl, by intro i h; simp [fetch_logs] at h⟩
  | cons line rest ih =>
    intro k0
    by_cases hstop : stopObs k0 = true
    · constructor
      · simp [fetch_logs, hstop]
      · intro i hi
        simp [fetch_logs, hstop] at hi
    · have hstop' : stopObs k0 = false := by
        cases h : stopObs k0 with
        | false => rfl
        | true => exact absurd h hstop
      obtain ⟨ih1, ih2⟩ := ih (k0 + 1)
      constructor
      · simp only [fetch_logs, hstop', if_neg Bool.false_ne_true, List.length_cons]
        rw [List.take_succ_cons, List.map_cons]
        exact congrArg _ ih1
      · intro i hi
        simp only [fetch_logs, hstop', if_neg Bool.false_ne_true, List.length_cons] at hi
        cases i with
        | zero => simpa using hstop'
        | succ j =>
          have hj : j < (fetch_logs stopObs (k0 + 1) rest).length := by omega
          have := ih2 j hj
          have harith : k0 + (j + 1) = k0 + 1 + j := by omega
          rw [harith]
          exact this

/-- C4: `add_and_set_main_widget` is idempotent with respect to membership:
calling it twice with the same widget leaves the stack length unchanged after
the second call compared to after the first, and the displayed widget is that
widget after both calls; no error can occur. -/
theorem add_and_show_idempotent (s : UIState) (v : Widget) :
    (add_and_set_main_widget (add_and_set_main_widget s v true) v true).widgets.length
        = (add_and_set_main_widget s v true).widgets.length ∧
    (add_and_set_main_widget s v true).displayed = v ∧
    (add_and_set_main_widget (add_and_set_main_widget s v true) v true).displayed = v := by
  refine ⟨?_, rfl, rfl⟩
  by_cases h : v ∈ s.widgets
  · simp [add_and_set_main_widget, set_main_widget, h]
  · simp [add_and_set_main_widget, set_main_widget, h]

/-- C7: pressing `i` on a row bound to an object that is neither a
`DockerImage` nor a `DockerContainer` raises `RuntimeError("wat")`, an
uncaught, fatal exception; no backend call is made and no state results. -/
theorem inspect_unknown_variant_fatal (be : DockerBackendM) (s : UIState) (w : Widget) :
    keypress_i be s .foreign w = ([], Except.error "RuntimeError: wat") := rfl

/-- C9: a ListView row shows the identifier truncated to 12 characters for
both variants, while the backend calls issued from that row (`inspect_image`,
`inspect_container`, `logs`) receive the full untruncated identifier. -/
theorem row_truncated_id_full_backend_calls (displayTime : DockerObject → String)
    (be : DockerBackendM) (s : UIState) (w : Widget)
    (iid names cid name cmd st : String) :
    (assemble_row displayTime (.image iid names)).map Row.shown_id
        = some (iid.take 12) ∧
    (assemble_row displayTime (.container cid name cmd st)).map Row.shown_id
        = some (cid.take 12) ∧
    (keypress_i be s (.image iid names) w).1 = [.inspectImage iid] ∧
    (keypress_i be s (.container cid name cmd st) w).1 = [.inspectContainer cid] ∧
    (keypress_l be s (.container cid name cmd st) w).1 = [.logs cid] := by
  refine ⟨?_, ?_, rfl, rfl, rfl⟩ <;> simp [assemble_row]

/-- C2: `remove_current_widget` while the main list is displayed is refused:
the warning is logged and the state is returned untouched — no widget is
removed, no teardown hook runs, and the displayed widget stays the same. -/
theorem remove_on_main_list_refused (s : UIState) (h : s.displayed = s.mainList) :
    remove_current_widget s = .ok (s, [], true) := by
  simp [remove_current_widget, h]

theorem remove_on_main_list_refused_witness :
    remove_current_widget ⟨⟨0, false⟩, [⟨0, false⟩, ⟨1, true⟩], ⟨0, false⟩, 0⟩
      = .ok (⟨⟨0, false⟩, [⟨0, false⟩, ⟨1, true⟩], ⟨0, false⟩, 0⟩, [], true) :=
  remove_on_main_list_refused ⟨⟨0, false⟩, [⟨0, false⟩, ⟨1, true⟩], ⟨0, false⟩, 0⟩ rfl

/-- C3: `remove_current_widget` while a non-main-list widget is displayed and
on the stack: the stack shrinks by exactly one, the main list becomes the
displayed widget, and the removed widget's `destroy` hook, when it has one,
is invoked exactly once (the destroyed-widget list is exactly `[displayed]`
in that case, and empty otherwise). -/
theorem remove_non_main_list (s : UIState) (hne : s.displayed ≠ s.mainList)
    (hmem : s.displayed ∈ s.widgets) :
    ∃ s' destroyed, remove_current_widget s = .ok (s', destroyed, false) ∧
      s'.widgets.length + 1 = s.widgets.length ∧
      s'.displayed = s.mainList ∧
      destroyed = (if s.displayed.hasDestroy then [s.displayed] else []) := by
  refine ⟨set_main_widget { s with widgets := s.widgets.erase s.displayed } s.mainList true,
    (if s.displayed.hasDestroy then [s.displayed] else []), ?_, ?_, rfl, rfl⟩
  · simp [remove_current_widget, hne, hmem]
  · have h1 : (s.widgets.erase s.displayed).length = s.widgets.length - 1 :=
      List.length_erase_of_mem hmem
    have h2 : 0 < s.widgets.length := List.length_pos_of_mem hmem
    simp only [set_main_widget]
    omega

theorem remove_non_main_list_witness :
    ∃ s' destroyed,
      remove_current_widget ⟨⟨0, false⟩, [⟨0, false⟩, ⟨1, true⟩], ⟨1, true⟩, 0⟩
        = .ok (s', destroyed, false) ∧
      s'.widgets.length + 1 =
        (⟨⟨0, false⟩, [⟨0, false⟩, ⟨1, true⟩], ⟨1, true⟩, 0⟩ : UIState).widgets.length ∧
      s'.displayed = (⟨⟨0, false⟩, [⟨0, false⟩, ⟨1, true⟩], ⟨1, true⟩, 0⟩ : UIState).mainList ∧
      destroyed =
        (if (⟨1, true⟩ : Widget).hasDestroy
          then [(⟨1, true⟩ : Widget)] else []) :=
  remove_non_main_list ⟨⟨0, false⟩, [⟨0, false⟩, ⟨1, true⟩], ⟨1, true⟩, 0⟩
    (by decide) (by decide)

/-- C5: the streaming buffer holds the initial block's non-empty stripped
lines first, followed by the streamed lines (stripped) in production order;
in particular, initial bytes `"a\nb\n"` followed by a stream yielding `"c"`
then `"d"` produce exactly the buffer `["a", "b", "c", "d"]`. -/
theorem streaming_buffer_order :
    (∀ static_data gen, streamingBuffer static_data gen (fun _ => false)
        = initial_log_texts static_data ++ gen.map pyStrip) ∧
    streamingBuffer "a\nb\n" ["c", "d"] (fun _ => false) = ["a", "b", "c", "d"] := by
  constructor
  · intro static_data gen
    unfold streamingBuffer
    rw [fetch_logs_no_stop]
  · decide

/-- C6: once the worker observes the stop flag set at observation `k`, at most
the first `k` produced lines are ever appended: the appended lines are the
strips of a prefix of the produced sequence of length at most `k`, and the
flag read before each of those appends returned `false`. -/
theorem cancellation_effective (stopObs : Nat → Bool) (gen : List String) (k : Nat)
    (hk : stopObs k = true) :
    (fetch_logs stopObs 0 gen).length ≤ k ∧
    fetch_logs stopObs 0 gen
      = (gen.take (fetch_logs stopObs 0 gen).length).map pyStrip ∧
    ∀ i < (fetch_logs stopObs 0 gen).length, stopObs i = false := by
  obtain ⟨hpre, hflag⟩ := fetch_logs_front stopObs gen 0
  have hflag' : ∀ i < (fetch_logs stopObs 0 gen).length, stopObs i = false := by
    intro i hi
    have := hflag i hi
    simpa using this
  refine ⟨?_, hpre, hflag'⟩
  by_contra hcon
  push_neg at hcon
  have := hflag' k hcon
  rw [this] at hk
  exact Bool.false_ne_true hk

theorem cancellation_effective_witness :
    (fetch_logs (fun n => decide (2 ≤ n)) 0 ["a", "b", "c", "d"]).length ≤ 2 ∧
    fetch_logs (fun n => decide (2 ≤ n)) 0 ["a", "b", "c", "d"]
      = ((["a", "b", "c", "d"].take
          (fetch_logs (fun n => decide (2 ≤ n)) 0 ["a", "b", "c", "d"]).length).map pyStrip) ∧
    ∀ i < (fetch_logs (fun n => decide (2 ≤ n)) 0 ["a", "b", "c", "d"]).length,
      (fun n => decide (2 ≤ n)) i = false :=
  cancellation_effective (fun n => decide (2 ≤ n)) ["a", "b", "c", "d"] 2 (by decide)

/-- C8 counterexample: with a backend whose image inspection raises, pressing
`i` on an Image row does not surface the failure as a view or message —
`keypress` re-raises the backend error, which nothing in the program catches,
so it propagates out of the input/render loop. -/
theorem inspect_backend_failure_crashes :
    (keypress_i
      ⟨fun _ => Except.error "ImageNotFound", fun _ => Except.error "ContainerNotFound",
        fun _ => ("", [])⟩
      ⟨⟨0, false⟩, [⟨0, false⟩], ⟨0, false⟩, 0⟩ (.image "abc123" "x") ⟨1, false⟩).2
      = Except.error "ImageNotFound" := rfl

/-- C8 amended: when a backend inspection call fails during the `i` action,
construction of the new view is denied and the stack is left unmodified, but
the error is not turned into a visible message — the exception propagates
uncaught out of the key handler (and hence crashes the input/render loop). -/
theorem inspect_backend_failure_propagates (be : DockerBackendM) (s : UIState)
    (iid names cid name cmd st : String) (w : Widget) (e1 e2 : String)
    (hI : be.inspect_image iid = .error e1)
    (hC : be.inspect_container cid = .error e2) :
    keypress_i be s (.image iid names) w = ([.inspectImage iid], .error e1) ∧
    keypress_i be s (.container cid name cmd st) w = ([.inspectContainer cid], .error e2) := by
  constructor
  · simp [keypress_i, hI]
  · simp [keypress_i, hC]

theorem inspect_backend_failure_propagates_witness :
    keypress_i
        ⟨fun _ => Except.error "ImgErr", fun _ => Except.error "CntErr", fun _ => ("", [])⟩
        ⟨⟨0, false⟩, [⟨0, false⟩], ⟨0, false⟩, 0⟩ (.image "iii" "x") ⟨1, false⟩
      = ([.inspectImage "iii"], .error "ImgErr") ∧
    keypress_i
        ⟨fun _ => Except.error "ImgErr", fun _ => Except.error "CntErr", fun _ => ("", [])⟩
        ⟨⟨0, false⟩, [⟨0, false⟩], ⟨0, false⟩, 0⟩ (.container "ccc" "n" "c" "s") ⟨1, false⟩
      = ([.inspectContainer "ccc"], .error "CntErr") :=
  inspect_backend_failure_propagates
    ⟨fun _ => Except.error "ImgErr", fun _ => Except.error "CntErr", fun _ => ("", [])⟩
    ⟨⟨0, false⟩, [⟨0, false⟩], ⟨0, false⟩, 0⟩ "iii" "x" "ccc" "n" "c" "s" ⟨1, false⟩
    "ImgErr" "CntErr" rfl rfl

/-- C1: on a stack of `N > 1` widgets, `pick_main_widget N` (one past the last
valid index) displays the widget at index 0, and `pick_main_widget (-1)`
displays the widget at index `N - 1` — the wrap laws in both directions. -/
theorem pick_wrap_both_directions (s : UIState) (h1 : 1 < s.widgets.length) :
    ∃ w0 wl, s.widgets.head? = some w0 ∧ s.widgets.getLast? = some wl ∧
      pick_main_widget s (s.widgets.length : Int) = .ok (set_main_widget s w0 true) ∧
      pick_main_widget s (-1 : Int) = .ok (set_main_widget s wl true) := by
  have h0 : 0 < s.widgets.length := by omega
  have hne1 : ¬ (s.widgets.length = 1) := by omega
  obtain ⟨w0, hw0⟩ : ∃ w0, s.widgets[0]? = some w0 := by
    rw [List.getElem?_eq_getElem h0]
    exact ⟨_, rfl⟩
  obtain ⟨wl, hwl⟩ : ∃ wl, s.widgets[s.widgets.length - 1]? = some wl := by
    rw [List.getElem?_eq_getElem (by omega)]
    exact ⟨_, rfl⟩
  have eN : pyGet s.widgets (s.widgets.length : Int) = none := by
    unfold pyGet
    rw [if_neg (by omega : ¬ ((s.widgets.length : Int) < 0))]
    apply List.getElem?_eq_none
    omega
  have e0 : pyGet s.widgets 0 = some w0 := by
    unfold pyGet
    rw [if_neg (by omega : ¬ ((0 : Int) < 0))]
    exact hw0
  have em1 : pyGet s.widgets (-1 : Int) = some wl := by
    unfold pyGet
    rw [if_pos (by omega : (-1 : Int) < 0),
      if_pos (by omega : (-1 : Int).natAbs ≤ s.widgets.length)]
    have habs : (-1 : Int).natAbs = 1 := by omega
    rw [habs]
    exact hwl
  refine ⟨w0, wl, ?_, ?_, ?_, ?_⟩
  · rw [List.head?_eq_getElem? s.widgets]
    exact hw0
  · rw [List.getLast?_eq_getElem? s.widgets]
    exact hwl
  · unfold pick_main_widget
    rw [if_neg hne1, eN, e0]
  · unfold pick_main_widget
    rw [if_neg hne1, em1]

theorem pick_wrap_both_directions_witness :
    ∃ w0 wl,
      (⟨⟨0, false⟩, [⟨0, false⟩, ⟨1, false⟩, ⟨2, true⟩], ⟨0, false⟩, 0⟩ : UIState).widgets.head?
        = some w0 ∧
      (⟨⟨0, false⟩, [⟨0, false⟩, ⟨1, false⟩, ⟨2, true⟩], ⟨0, false⟩, 0⟩ : UIState).widgets.getLast?
        = some wl ∧
      pick_main_widget ⟨⟨0, false⟩, [⟨0, false⟩, ⟨1, false⟩, ⟨2, true⟩], ⟨0, false⟩, 0⟩
          ((⟨⟨0, false⟩, [⟨0, false⟩, ⟨1, false⟩, ⟨2, true⟩], ⟨0, false⟩, 0⟩ : UIState).widgets.length : Int)
        = .ok (set_main_widget ⟨⟨0, false⟩, [⟨0, false⟩, ⟨1, false⟩, ⟨2, true⟩], ⟨0, false⟩, 0⟩ w0 true) ∧
      pick_main_widget ⟨⟨0, false⟩, [⟨0, false⟩, ⟨1, false⟩, ⟨2, true⟩], ⟨0, false⟩, 0⟩ (-1 : Int)
        = .ok (set_main_widget ⟨⟨0, false⟩, [⟨0, false⟩, ⟨1, false⟩, ⟨2, true⟩], ⟨0, false⟩, 0⟩ wl true) :=
  pick_wrap_both_directions ⟨⟨0, false⟩, [⟨0, false⟩, ⟨1, false⟩, ⟨2, true⟩], ⟨0, false⟩, 0⟩
    (by decide)

/-- C10: on a stack of `N > 1` widgets, a negative index `i` with
`-N <= i <= -1` displays the widget at position `N + i` (written below as
`N - natAbs i`, the same number): Python negative indexing, not the
wrap-to-start fallback; only `i >= N` or `i < -N` raise `IndexError` and fall
back to the widget at index 0. -/
theorem pick_negative_indexing (s : UIState) (h1 : 1 < s.widgets.length) (i : Int) :
    (-(s.widgets.length : Int) ≤ i ∧ i ≤ -1 →
      ∃ w, s.widgets[s.widgets.length - i.natAbs]? = some w ∧
        pick_main_widget s i = .ok (set_main_widget s w true)) ∧
    ((s.widgets.length : Int) ≤ i ∨ i < -(s.widgets.length : Int) →
      ∃ w, s.widgets.head? = some w ∧
        pick_main_widget s i = .ok (set_main_widget s w true)) := by
  have h0 : 0 < s.widgets.length := by omega
  have hne1 : ¬ (s.widgets.length = 1) := by omega
  obtain ⟨w0, hw0⟩ : ∃ w0, s.widgets[0]? = some w0 := by
    rw [List.getElem?_eq_getElem h0]
    exact ⟨_, rfl⟩
  constructor
  · rintro ⟨hlo, hhi⟩
    have hneg : i < 0 := by omega
    have habs : i.natAbs ≤ s.widgets.length := by omega
    have hlt : s.widgets.length - i.natAbs < s.widgets.length := by omega
    obtain ⟨w, hw⟩ : ∃ w, s.widgets[s.widgets.length - i.natAbs]? = some w := by
      rw [List.getElem?_eq_getElem hlt]
      exact ⟨_, rfl⟩
    refine ⟨w, hw, ?_⟩
    have epy : pyGet s.widgets i = some w := by
      unfold pyGet
      rw [if_pos hneg, if_pos habs]
      exact hw
    unfold pick_main_widget
    rw [if_neg hne1, epy]
  · intro hout
    have e0 : pyGet s.widgets 0 = some w0 := by
      unfold pyGet
      rw [if_neg (by omega : ¬ ((0 : Int) < 0))]
      exact hw0
    have eNone : pyGet s.widgets i = none := by
      unfold pyGet
      rcases hout with hge | hlt
      · rw [if_neg (by omega : ¬ (i < 0))]
        apply List.getElem?_eq_none
        omega
      · rw [if_pos (by omega : i < 0), if_neg (by omega : ¬ (i.natAbs ≤ s.widgets.length))]
    refine ⟨w0, ?_, ?_⟩
    · rw [List.head?_eq_getElem? s.widgets]
      exact hw0
    · unfold pick_main_widget
      rw [if_neg hne1, eNone, e0]

theorem pick_negative_indexing_witness :
    (-((⟨⟨0, false⟩, [⟨0, false⟩, ⟨1, false⟩, ⟨2, true⟩], ⟨0, false⟩, 0⟩ : UIState).widgets.length : Int) ≤ -2
        ∧ (-2 : Int) ≤ -1 →
      ∃ w, (⟨⟨0, false⟩, [⟨0, false⟩, ⟨1, false⟩, ⟨2, true⟩], ⟨0, false⟩, 0⟩ : UIState).widgets[
          (⟨⟨0, false⟩, [⟨0, false⟩, ⟨1, false⟩, ⟨2, true⟩], ⟨0, false⟩, 0⟩ : UIState).widgets.length
            - (-2 : Int).natAbs]? = some w ∧
        pick_main_widget ⟨⟨0, false⟩, [⟨0, false⟩, ⟨1, false⟩, ⟨2, true⟩], ⟨0, false⟩, 0⟩ (-2)
          = .ok (set_main_widget
              ⟨⟨0, false⟩, [⟨0, false⟩, ⟨1, false⟩, ⟨2, true⟩], ⟨0, false⟩, 0⟩ w true)) ∧
    (((⟨⟨0, false⟩, [⟨0, false⟩, ⟨1, false⟩, ⟨2, true⟩], ⟨0, false⟩, 0⟩ : UIState).widgets.length : Int) ≤ -2
        ∨ (-2 : Int) < -((⟨⟨0, false⟩, [⟨0, false⟩, ⟨1, false⟩, ⟨2, true⟩], ⟨0, false⟩, 0⟩ : UIState).widgets.length : Int) →
      ∃ w, (⟨⟨0, false⟩, [⟨0, false⟩, ⟨1, false⟩, ⟨2, true⟩], ⟨0, false⟩, 0⟩ : UIState).widgets.head?
          = some w ∧
        pick_main_widget ⟨⟨0, false⟩, [⟨0, false⟩, ⟨1, false⟩, ⟨2, true⟩], ⟨0, false⟩, 0⟩ (-2)
          = .ok (set_main_widget
              ⟨⟨0, false⟩, [⟨0, false⟩, ⟨1, false⟩, ⟨2, true⟩], ⟨0, false⟩, 0⟩ w true)) :=
  pick_negative_indexing ⟨⟨0, false⟩, [⟨0, false⟩, ⟨1, false⟩, ⟨2, true⟩], ⟨0, false⟩, 0⟩
    (by decide) (-2)
